import Mathlib

/-
  Verification of the ROCK sandbox control plane.

  Shallow embedding of the code in rock/sandbox/sandbox_manager.py,
  rock/sandbox/service/deployment_service.py, rock/actions/sandbox/response.py,
  rock/admin/scheduler/worker_client.py and rock/sdk/model/server/api/proxy.py.

  Conventions of the embedding:
  - Python dicts become association lists with first-match lookup
    (later duplicate entries are inert, as in a real dict).
  - The Redis JSON store becomes an association list from full key strings to
    typed values; json_set / json_get / json_delete become kvSet / kvGet /
    kvDelete.  json_get with path "$" returns a singleton list in Python;
    the list wrapper is dropped, presence/absence is kept.
  - Numbers that Python stores as decimal strings in Redis (auto_clear_time,
    expire_time) are modelled as Nat; str and int conversions on canonical
    decimal numerals are inverse to each other, so they are dropped.
  - Python floats (cpus, resource metrics) are modelled as rationals.
  - async functions become pure state-passing functions; awaited results of
    external collaborators (the ray actor, the upstream HTTP server) are
    passed in as explicit inputs.
  - raised exceptions become Except values; an except-clause becomes a match.
-/

namespace Rock

/-! ## JSON values and Python dicts -/

/-- JSON-like values stored in SandboxInfo dicts and HTTP bodies.
Composite values that the verified code never opens (the phase map of a
ServiceStatus and a port mapping) get constructors of their own. -/
inductive JVal where
  | str : String → JVal
  | num : Int → JVal
  | bool : Bool → JVal
  | null : JVal
  | phases : List (String × String) → JVal
  | ports : List (String × Nat) → JVal
deriving DecidableEq

/-- A Python dict with string keys: association list, first match wins. -/
abbrev Dict := List (String × JVal)

/-- Python d.get(k): first matching entry, None when absent. -/
def dictGet (d : Dict) (k : String) : Option JVal :=
  match d with
  | [] => none
  | (k₁, v) :: rest => if k₁ = k then some v else dictGet rest k

/-- Python d[k] = v: replace the binding if the key is present, append otherwise. -/
def dictSet (d : Dict) (k : String) (v : JVal) : Dict :=
  match d with
  | [] => [(k, v)]
  | (k₁, v₁) :: rest => if k₁ = k then (k, v) :: rest else (k₁, v₁) :: dictSet rest k v

/-- Python d.update(u): set every binding of u into d, in order. -/
def dictUpdate (d u : Dict) : Dict :=
  u.foldl (fun acc p => dictSet acc p.1 p.2) d

/-- Assignment into a dict with string values (_sandbox_meta). -/
def dictSetStr (d : List (String × String)) (k v : String) : List (String × String) :=
  match d with
  | [] => [(k, v)]
  | (k₁, v₁) :: rest => if k₁ = k then (k, v) :: rest else (k₁, v₁) :: dictSetStr rest k v

/-- Python dict comprehension filtering on a key whitelist, as in
remote_info = {k: v for k, v in deployment_info.items() if k in [...]}. -/
def dictFilterKeys (d : Dict) (ks : List String) : Dict :=
  d.filter (fun p => p.1 ∈ ks)

/-! ## The KV store (rock RedisProvider as used by the manager and reaper) -/

/-- The auto-clear record stored under the timeout key:
{ROCK_SANDBOX_AUTO_CLEAR_TIME_KEY: minutes, ROCK_SANDBOX_EXPIRE_TIME_KEY: epoch seconds}. -/
structure TimeoutRecord where
  auto_clear_time : Nat
  expire_time : Nat
deriving DecidableEq

/-- Values held by the KV store: a SandboxInfo JSON under an alive key,
a TimeoutRecord JSON under a timeout key. -/
inductive KVVal where
  | info : Dict → KVVal
  | timeout : TimeoutRecord → KVVal
deriving DecidableEq

/-- The store itself: full redis key to JSON value, first match wins. -/
abbrev KVStore := List (String × KVVal)

def kvGet (kv : KVStore) (k : String) : Option KVVal :=
  match kv with
  | [] => none
  | (k₁, v) :: rest => if k₁ = k then some v else kvGet rest k

def kvSet (kv : KVStore) (k : String) (v : KVVal) : KVStore :=
  match kv with
  | [] => [(k, v)]
  | (k₁, v₁) :: rest => if k₁ = k then (k, v) :: rest else (k₁, v₁) :: kvSet rest k v

/-- json_delete removes the key. -/
def kvDelete (kv : KVStore) (k : String) : KVStore :=
  kv.filter (fun p => p.1 ≠ k)

/-- Modelled from the spec: rock/admin/core/redis_key.py is not among the
sources at hand; the spec fixes the canonical keys as alive:{sandbox_id}
and timeout:{sandbox_id}. -/
def aliveKey (sandbox_id : String) : String := "alive:" ++ sandbox_id

/-- Modelled from the spec: the TTL-record key timeout:{sandbox_id}. -/
def timeoutKey (sandbox_id : String) : String := "timeout:" ++ sandbox_id

/-! ## Errors -/

/-- The rock error taxonomy as far as the verified code distinguishes it. -/
inductive RockError where
  | badRequest : String → RockError
  | internal : String → RockError
deriving DecidableEq

/-- Python exception kinds that appear in the verified control flow. -/
inductive PyError where
  | valueError : String → PyError
  | runtimeError : String → PyError
  | exception : String → PyError
deriving DecidableEq

/-! ## Memory size parsing -/

/-- Multiplier for a memory unit suffix. -/
def unitMultiplier (u : String) : Option Nat :=
  if u = "b" then some 1
  else if u = "k" then some 1024
  else if u = "kb" then some 1024
  else if u = "m" then some (1024 * 1024)
  else if u = "mb" then some (1024 * 1024)
  else if u = "g" then some (1024 * 1024 * 1024)
  else if u = "gb" then some (1024 * 1024 * 1024)
  else if u = "t" then some (1024 * 1024 * 1024 * 1024)
  else if u = "tb" then some (1024 * 1024 * 1024 * 1024)
  else none

/-- Modelled from the spec: rock/utils/format.py (parse_memory_size) is not
among the sources at hand.  The spec describes memory as a human-readable
size such as "8g" or "512m", parsed to bytes, with unparsable strings
raising ValueError (here: none), and lists the unit-less string "0" among
the inputs that validation must reject.  The parser is therefore modelled
as decimal digits followed by a mandatory unit suffix. -/
def parseMemorySize (s : String) : Option Nat :=
  let digits := s.data.takeWhile Char.isDigit
  let rest := s.data.dropWhile Char.isDigit
  if digits.isEmpty then none
  else
    match unitMultiplier ⟨rest⟩ with
    | some mult => some ((digits.foldl (fun acc c => acc * 10 + (c.toNat - 48)) 0) * mult)
    | none => none

/-! ## Configuration records -/

/-- runtime.max_allowed_spec from RockConfig. -/
structure MaxAllowedSpec where
  cpus : ℚ
  memory : String
deriving DecidableEq

/-- RuntimeConfig, restricted to the field the manager validates against. -/
structure RuntimeConfig where
  max_allowed_spec : MaxAllowedSpec
deriving DecidableEq

/-- DeploymentConfig, restricted to the fields submit and validation read.
container_name doubles as the sandbox id; auto_clear_time is in minutes. -/
structure DeploymentConfig where
  image : String
  cpus : ℚ
  memory : String
  auto_clear_time : Nat
  container_name : String
deriving DecidableEq

/-! ## SandboxManager.validate_sandbox_spec -/

/-- SandboxManager.validate_sandbox_spec (sandbox_manager.py:396-410).
Parses both memory strings inside a try whose except ValueError raises
BadRequest; then checks cpus against the maximum, then memory. -/
def validate_sandbox_spec (runtime_config : RuntimeConfig) (deployment_config : DeploymentConfig) :
    Except RockError Unit :=
  match parseMemorySize deployment_config.memory with
  | none => .error (.badRequest ("Invalid memory size: " ++ deployment_config.memory))
  | some memory =>
    match parseMemorySize runtime_config.max_allowed_spec.memory with
    | none => .error (.badRequest ("Invalid memory size: " ++ deployment_config.memory))
    | some max_memory =>
      if runtime_config.max_allowed_spec.cpus < deployment_config.cpus then
        .error (.badRequest "Requested CPUs exceed the maximum allowed")
      else if max_memory < memory then
        .error (.badRequest "Requested memory exceed the maximum allowed")
      else
        .ok ()

/-! ## Manager state -/

/-- The state a SandboxManager instance (with a configured RedisProvider)
can observe and mutate: the KV store, the in-process _sandbox_meta dict
(sandbox id to image), and the set of named, detached sandbox actors held
by the ray deployment layer (names are unique per namespace). -/
structure ManagerState where
  kv : KVStore
  meta : List (String × String)
  actors : List String
deriving DecidableEq

/-! ## SandboxManager.submit -/

/-- SandboxStartResponse as built by submit. -/
structure SandboxStartResponse where
  sandbox_id : String
  host_name : Option JVal
  host_ip : Option JVal
deriving DecidableEq

/-- External inputs of one submit call: the wall clock int(time.time()) and
the outcome of the awaited deployment_service.submit (the ray actor launch,
which can itself fail, e.g. with BadRequest from _generate_actor_options). -/
structure SubmitEnv where
  now : Nat
  deployResult : Except RockError Dict

/-- SandboxManager.submit (sandbox_manager.py:85-107).  init_config resolves
defaults into the DeploymentConfig; its result is the config passed in here.
Validation runs first; then _sandbox_meta is written, the deployment is
submitted, and only then are the alive and timeout keys written to the KV
store.  Returns the resulting state together with the response or the
raised error. -/
def managerSubmit (s : ManagerState) (rc : RuntimeConfig) (dc : DeploymentConfig)
    (env : SubmitEnv) : ManagerState × Except RockError SandboxStartResponse :=
  let sandbox_id := dc.container_name
  match validate_sandbox_spec rc dc with
  | .error e => (s, .error e)
  | .ok _ =>
    let s₁ : ManagerState := { s with meta := dictSetStr s.meta sandbox_id dc.image }
    match env.deployResult with
    | .error e => (s₁, .error e)
    | .ok sandbox_info =>
      let stop_time := env.now + dc.auto_clear_time * 60
      let auto_clear_rec : TimeoutRecord :=
        { auto_clear_time := dc.auto_clear_time, expire_time := stop_time }
      let kv₁ := kvSet s₁.kv (aliveKey sandbox_id) (.info sandbox_info)
      let kv₂ := kvSet kv₁ (timeoutKey sandbox_id) (.timeout auto_clear_rec)
      ({ s₁ with kv := kv₂, actors := sandbox_id :: s₁.actors },
       .ok { sandbox_id := sandbox_id,
             host_name := dictGet sandbox_info "host_name",
             host_ip := dictGet sandbox_info "host_ip" })

/-! ## SandboxManager.stop -/

/-- RayDeploymentService.stop: ray.get_actor raises ValueError when the
named actor does not exist (re-raised by async_ray_get_actor); otherwise the
actor is stopped and killed, which frees its unique name. -/
def deployment_service_stop (actors : List String) (sandbox_id : String) :
    Except PyError (List String) :=
  if sandbox_id ∈ actors then .ok (actors.filter (fun a => a ≠ sandbox_id))
  else .error (.valueError ("actor " ++ sandbox_id ++ " not exist"))

/-- SandboxManager._clear_redis_keys (sandbox_manager.py:142-146):
json_delete on the alive key, then on the timeout key. -/
def clear_redis_keys (kv : KVStore) (sandbox_id : String) : KVStore :=
  kvDelete (kvDelete kv (aliveKey sandbox_id)) (timeoutKey sandbox_id)

/-- SandboxManager.stop (sandbox_manager.py:109-123).  deployment stop is
tried; a ValueError (actor not found) is swallowed after clearing the KV
keys; any other exception propagates.  Then _sandbox_meta.pop with KeyError
swallowed, then _clear_redis_keys unconditionally. -/
def managerStop (s : ManagerState) (sandbox_id : String) : Except PyError ManagerState :=
  match deployment_service_stop s.actors sandbox_id with
  | .ok actors₁ =>
    .ok { kv := clear_redis_keys s.kv sandbox_id,
          meta := s.meta.filter (fun p => p.1 ≠ sandbox_id),
          actors := actors₁ }
  | .error (.valueError _) =>
    .ok { kv := clear_redis_keys (clear_redis_keys s.kv sandbox_id) sandbox_id,
          meta := s.meta.filter (fun p => p.1 ≠ sandbox_id),
          actors := s.actors }
  | .error e => .error e

/-! ## SandboxManager.get_status and the TTL refresh -/

/-- The live side of one get_status call: what the sandbox actor answers.
base is the dict returned by actor.sandbox_info.remote(); phases and the
port mapping come from actor.get_status.remote(); is_alive from
actor.is_alive.remote(). -/
structure ActorView where
  base : Dict
  phases : List (String × String)
  port_mapping : List (String × Nat)
  is_alive : Bool
deriving DecidableEq

/-- RayDeploymentService.get_status (deployment_service.py:148-158): the
actor dict is decorated with the phases, the port mapping and the alive
flag; state is set to RUNNING exactly when the alive probe succeeded. -/
def rayGetStatus (a : ActorView) : Dict :=
  let d₁ := dictSet a.base "phases" (.phases a.phases)
  let d₂ := dictSet d₁ "port_mapping" (.ports a.port_mapping)
  let d₃ := dictSet d₂ "alive" (.bool a.is_alive)
  if a.is_alive then dictSet d₃ "state" (.str "running") else d₃

/-- SandboxManager.build_sandbox_info_from_redis: json_get on the alive key;
an empty result means no cached record.  Alive keys only ever hold
SandboxInfo JSON. -/
def build_sandbox_info_from_redis (kv : KVStore) (sandbox_id : String) : Option Dict :=
  match kvGet kv (aliveKey sandbox_id) with
  | some (.info d) => some d
  | _ => none

/-- SandboxManager._update_expire_time (sandbox_manager.py:376-394): skip
when the alive record is absent; skip when the timeout record is absent;
otherwise rewrite the timeout record with the same auto_clear_time and
expire_time = int(time.time()) + auto_clear_time * 60. -/
def update_expire_time (kv : KVStore) (sandbox_id : String) (now : Nat) : KVStore :=
  match kvGet kv (aliveKey sandbox_id) with
  | none => kv
  | some _ =>
    match kvGet kv (timeoutKey sandbox_id) with
    | some (.timeout origin) =>
      kvSet kv (timeoutKey sandbox_id)
        (.timeout { auto_clear_time := origin.auto_clear_time,
                    expire_time := now + origin.auto_clear_time * 60 })
    | _ => kv

/-- SandboxStatusResponse as built at the end of get_status; every field is
the raw dict lookup the Python constructor call performs.  The Python field
named namespace is called name_space here (Lean keyword). -/
structure SandboxStatusResponse where
  sandbox_id : String
  status : Option JVal
  state : Option JVal
  port_mapping : Option JVal
  host_name : Option JVal
  host_ip : Option JVal
  is_alive : Option JVal
  image : Option JVal
  user_id : Option JVal
  experiment_id : Option JVal
  name_space : Option JVal
  cpus : Option JVal
  memory : Option JVal
deriving DecidableEq

/-- SandboxManager.get_status (sandbox_manager.py:148-166 and the response
construction), for a manager with a configured RedisProvider and a live
actor (an actor lookup failure would raise before any of this runs):
fetch the live view, fetch the cached record, overwrite its state with the
live state (None when the live view has none), write it back to the alive
key, refresh the TTL record, then update the record in place with the
live entries for the keys status, port_mapping and alive, and build the
response from the updated record. -/
def managerGetStatus (s : ManagerState) (sandbox_id : String) (a : ActorView) (now : Nat) :
    ManagerState × SandboxStatusResponse :=
  let deployment_info := rayGetStatus a
  let sandbox_info :=
    match build_sandbox_info_from_redis s.kv sandbox_id with
    | none => deployment_info
    | some d => dictSet d "state" ((dictGet deployment_info "state").getD .null)
  let kv₁ := kvSet s.kv (aliveKey sandbox_id) (.info sandbox_info)
  let kv₂ := update_expire_time kv₁ sandbox_id now
  let remote_info := dictFilterKeys deployment_info ["status", "port_mapping", "alive"]
  let merged := dictUpdate sandbox_info remote_info
  ({ s with kv := kv₂ },
   { sandbox_id := sandbox_id
     status := dictGet merged "status"
     state := dictGet merged "state"
     port_mapping := dictGet merged "port_mapping"
     host_name := dictGet merged "host_name"
     host_ip := dictGet merged "host_ip"
     is_alive := dictGet merged "alive"
     image := dictGet merged "image"
     user_id := dictGet merged "user_id"
     experiment_id := dictGet merged "experiment_id"
     name_space := dictGet merged "namespace"
     cpus := dictGet merged "cpus"
     memory := dictGet merged "memory" })

/-! ## The reaper: SandboxManager._check_job_background -/

/-- True when p is an initial segment of s (str.startswith). -/
def hasPref (p s : String) : Bool := s.data.take p.data.length = p.data

/-- Python str.removeprefix: drop p from the front of s when it is there,
return s unchanged otherwise. -/
def strDropPref (p s : String) : String :=
  if hasPref p s then ⟨s.data.drop p.data.length⟩ else s

/-- The keys the reaper sees: scan_iter with match alive:* yields exactly
the store keys carrying the alive prefix, in store order. -/
def scanAliveKeys (kv : KVStore) : List String :=
  (kv.map Prod.fst).filter (hasPref "alive:")

/-- The scan request _check_job_background issues:
scan_iter(match="alive:*", count=100) — count is the redis batch size. -/
structure ScanRequest where
  match_glob : String
  count : Nat
deriving DecidableEq

def check_job_scan_request : ScanRequest := { match_glob := "alive:*", count := 100 }

/-- SandboxManager._is_expired (sandbox_manager.py:334-344): raise when the
timeout record is absent, otherwise int(time.time()) > expire_time. -/
def is_expired (kv : KVStore) (sandbox_id : String) (now : Nat) : Except PyError Bool :=
  match kvGet kv (timeoutKey sandbox_id) with
  | some (.timeout origin) => .ok (decide (origin.expire_time < now))
  | _ => .error (.exception ("sandbox " ++ sandbox_id ++ " timeout key not found"))

/-- One iteration of the reaper scan body: strip the alive prefix, check
expiry; on any exception continue with nothing scheduled; when expired,
asyncio.create_task(self.stop(id)) — record the id as scheduled, without
running the stop. -/
def check_job_step (kv : KVStore) (now : Nat) (acc : List String) (key : String) :
    List String :=
  let sandbox_id := strDropPref "alive:" key
  match is_expired kv sandbox_id now with
  | .ok true => acc ++ [sandbox_id]
  | .ok false => acc
  | .error _ => acc

/-- SandboxManager._check_job_background (sandbox_manager.py:354-370), for a
manager with a configured RedisProvider: scan the alive keys, schedule a
fire-and-forget stop for each expired sandbox, swallow every per-iteration
exception.  Returns the (unchanged) state and the ids whose stop tasks were
created; the tasks themselves are not awaited inside the scan. -/
def check_job_background (s : ManagerState) (now : Nat) : ManagerState × List String :=
  (s, (scanAliveKeys s.kv).foldl (check_job_step s.kv now) [])

/-! ## Model service proxy: rock/sdk/model/server/api/proxy.py -/

/-- What one upstream POST from the proxy can come back with. -/
inductive UpstreamOutcome where
  | timeoutExc
  | requestErrorExc : String → UpstreamOutcome
  | response : Nat → JVal → UpstreamOutcome
deriving DecidableEq

/-- What the /v1/chat/completions handler hands back to the client. -/
inductive ProxyResult where
  | httpException : Nat → ProxyResult
  | jsonResponse : JVal → Nat → ProxyResult
  | plain : JVal → ProxyResult
deriving DecidableEq

/-- forward_non_streaming_request (proxy.py:15-55): a single client.post
to the target; httpx.TimeoutException becomes HTTPException 504,
httpx.RequestError becomes 502; otherwise the parsed body and the upstream
status are returned, whatever the status is.  There is no loop and no
second request. -/
def forward_non_streaming_request (u : UpstreamOutcome) : Except Nat (JVal × Nat) :=
  match u with
  | .timeoutExc => .error 504
  | .requestErrorExc _ => .error 502
  | .response status_code body => .ok (body, status_code)

/-- chat_completions (proxy.py:100-127), non-streaming path: forward once;
a 200 body is returned as-is, any other status is wrapped unchanged in a
JSONResponse with that status.  The input list is the sequence of outcomes
the upstream would produce on successive calls; the second component of
the result counts the upstream calls actually made. -/
def chat_completions (upstream : List UpstreamOutcome) : ProxyResult × Nat :=
  match upstream with
  | [] => (.httpException 500, 0)
  | u :: _ =>
    match forward_non_streaming_request u with
    | .error code => (.httpException code, 1)
    | .ok (body, status_code) =>
      if status_code = 200 then (.plain body, 1)
      else (.jsonResponse body status_code, 1)

/-! ## Worker HTTP client: rock/admin/scheduler/worker_client.py -/

/-- CommandResponse (rock/actions/sandbox/response.py): stdout and stderr
default to the empty string, exit_code to None. -/
structure CommandResponse where
  stdout : String
  stderr : String
  exit_code : Option Int
deriving DecidableEq

/-- Pydantic decoding of a JSON body into a CommandResponse: present,
well-typed fields are taken, absent fields get their defaults.  The bodies
the claims quantify over are well typed. -/
def commandResponseOfJson (body : Dict) : CommandResponse :=
  { stdout := match dictGet body "stdout" with | some (.str v) => v | _ => ""
    stderr := match dictGet body "stderr" with | some (.str v) => v | _ => ""
    exit_code := match dictGet body "exit_code" with | some (.num v) => some v | _ => none }

/-- An HTTP response as the worker client sees it. -/
structure HttpResponse where
  status_code : Nat
  body : Dict
deriving DecidableEq

/-- WorkerClient.execute (worker_client.py:18-28): the response body is
decoded into a CommandResponse without any status_code check; when
exit_code != 0 (including None) a RuntimeError is raised, otherwise the
structured response is returned. -/
def workerClientExecute (command : String) (resp : HttpResponse) :
    Except PyError CommandResponse :=
  let execute_resp := commandResponseOfJson resp.body
  if execute_resp.exit_code ≠ some 0 then
    .error (.runtimeError ("execute command [" ++ command ++ "] error, caused by ["
      ++ execute_resp.stderr ++ "]"))
  else
    .ok execute_resp

/-! ## Sandbox state enum: rock/actions/sandbox/response.py:15-17 -/

/-- class State(str, Enum) — its two members. -/
inductive State where
  | pending
  | running
deriving DecidableEq

/-- The str value of each State member. -/
def State.val : State → String
  | .pending => "pending"
  | .running => "running"

/-! ## SystemResourceMetrics: rock/actions/sandbox/response.py:131-168 -/

/-- System resource metrics; Python floats become rationals, the GPU counts
are ints. -/
structure SystemResourceMetrics where
  total_cpu : ℚ
  total_memory : ℚ
  available_cpu : ℚ
  available_memory : ℚ
  gpu_count : ℤ
  available_gpu : ℤ
deriving DecidableEq

def SystemResourceMetrics.get_cpu_utilization (m : SystemResourceMetrics) : ℚ :=
  if m.total_cpu = 0 then 0
  else (m.total_cpu - m.available_cpu) / m.total_cpu

def SystemResourceMetrics.get_memory_utilization (m : SystemResourceMetrics) : ℚ :=
  if m.total_memory = 0 then 0
  else (m.total_memory - m.available_memory) / m.total_memory

def SystemResourceMetrics.get_gpu_utilization (m : SystemResourceMetrics) : ℚ :=
  if m.gpu_count = 0 then 0
  else ((m.gpu_count : ℚ) - (m.available_gpu : ℚ)) / (m.gpu_count : ℚ)

/-- The id one reaper iteration schedules for stopping, if any: the alive
prefix is stripped, and the id is scheduled exactly when _is_expired
returns True. -/
def expiredId (kv : KVStore) (now : Nat) (key : String) : Option String :=
  let sandbox_id := strDropPref "alive:" key
  match is_expired kv sandbox_id now with
  | .ok true => some sandbox_id
  | _ => none

/-! ## Concrete fixtures for the C4 analysis -/

/-- A cached alive record carrying a stale phase map under the status key. -/
def c4cached : Dict :=
  [("image", .str "python:3.11"), ("user_id", .str "u1"),
   ("status", .phases [("docker_run", "stale")])]

/-- A manager state whose KV store holds the cached record for sandbox sb. -/
def c4state : ManagerState :=
  { kv := [(aliveKey "sb", .info c4cached), (timeoutKey "sb", .timeout ⟨5, 0⟩)],
    meta := [("sb", "python:3.11")],
    actors := ["sb"] }

/-- A live actor view whose remote phase map differs from the cached one. -/
def c4actor : ActorView :=
  { base := [],
    phases := [("docker_run", "running")],
    port_mapping := [("proxy", 8080)],
    is_alive := true }

/-! ## Helper lemmas on dicts -/

theorem dictGet_dictSet_self (d : Dict) (k : String) (v : JVal) :
    dictGet (dictSet d k v) k = some v := by
  induction d with
  | nil => simp [dictSet, dictGet]
  | cons p rest ih =>
    obtain ⟨k₁, v₁⟩ := p
    by_cases h : k₁ = k <;> simp [dictSet, dictGet, h, ih]

theorem dictGet_dictSet_ne (d : Dict) (k k₀ : String) (v : JVal) (hne : k ≠ k₀) :
    dictGet (dictSet d k v) k₀ = dictGet d k₀ := by
  induction d with
  | nil => simp [dictSet, dictGet, hne]
  | cons p rest ih =>
    obtain ⟨k₁, v₁⟩ := p
    by_cases h : k₁ = k
    · subst h
      simp [dictSet, dictGet, hne]
    · simp [dictSet, dictGet, h, ih]

theorem dictGet_eq_none_iff (d : Dict) (k : String) :
    dictGet d k = none ↔ k ∉ d.map Prod.fst := by
  induction d with
  | nil => simp [dictGet]
  | cons p rest ih =>
    obtain ⟨k₁, v₁⟩ := p
    by_cases h : k₁ = k
    · subst h
      simp [dictGet]
    · simp only [dictGet, if_neg h, List.map_cons, List.mem_cons, ih]
      constructor
      · rintro hk (h1 | h2)
        · exact h h1.symm
        · exact hk h2
      · exact fun hk h2 => hk (Or.inr h2)

theorem dictSet_map_fst (d : Dict) (k : String) (v : JVal) :
    (dictSet d k v).map Prod.fst =
      if k ∈ d.map Prod.fst then d.map Prod.fst else d.map Prod.fst ++ [k] := by
  induction d with
  | nil => simp [dictSet]
  | cons p rest ih =>
    obtain ⟨k₁, v₁⟩ := p
    by_cases h : k₁ = k
    · subst h
      simp [dictSet]
    · have hkk : ¬ k = k₁ := fun he => h he.symm
      by_cases hmem : k ∈ rest.map Prod.fst
      · simp [dictSet, h, ih, hmem, hkk]
      · simp [dictSet, h, ih, hmem, hkk]

theorem dictSet_nodup_keys (d : Dict) (k : String) (v : JVal)
    (hd : (d.map Prod.fst).Nodup) : ((dictSet d k v).map Prod.fst).Nodup := by
  rw [dictSet_map_fst]
  by_cases hmem : k ∈ d.map Prod.fst
  · simpa [hmem] using hd
  · rw [if_neg hmem]
    refine List.Nodup.append hd (List.nodup_singleton k) ?_
    intro a ha hak
    rw [List.mem_singleton] at hak
    exact hmem (hak ▸ ha)

theorem dictGet_dictUpdate_not_mem (d u : Dict) (k : String)
    (h : k ∉ u.map Prod.fst) : dictGet (dictUpdate d u) k = dictGet d k := by
  induction u generalizing d with
  | nil => simp [dictUpdate]
  | cons p rest ih =>
    obtain ⟨k₁, v₁⟩ := p
    simp only [List.map_cons, List.mem_cons] at h
    push_neg at h
    have step : dictUpdate d ((k₁, v₁) :: rest) = dictUpdate (dictSet d k₁ v₁) rest := by
      simp [dictUpdate]
    rw [step, ih (dictSet d k₁ v₁) h.2, dictGet_dictSet_ne _ _ _ _ (fun hk => h.1 hk.symm)]

theorem dictGet_dictUpdate_mem (d u : Dict) (k : String) (v : JVal)
    (hn : (u.map Prod.fst).Nodup) (h : dictGet u k = some v) :
    dictGet (dictUpdate d u) k = some v := by
  induction u generalizing d with
  | nil => simp [dictGet] at h
  | cons p rest ih =>
    obtain ⟨k₁, v₁⟩ := p
    simp only [List.map_cons, List.nodup_cons] at hn
    have step : dictUpdate d ((k₁, v₁) :: rest) = dictUpdate (dictSet d k₁ v₁) rest := by
      simp [dictUpdate]
    by_cases hk : k₁ = k
    · subst hk
      have h₁ : v₁ = v := by simpa [dictGet] using h
      subst h₁
      rw [step, dictGet_dictUpdate_not_mem _ _ _ hn.1, dictGet_dictSet_self]
    · simp only [dictGet, if_neg hk] at h
      rw [step, ih _ hn.2 h]

theorem dictGet_dictFilterKeys_of_mem (d : Dict) (ks : List String) (k : String)
    (h : k ∈ ks) : dictGet (dictFilterKeys d ks) k = dictGet d k := by
  induction d with
  | nil => rfl
  | cons p rest ih =>
    obtain ⟨k₁, v₁⟩ := p
    simp only [dictFilterKeys, List.filter_cons] at ih ⊢
    by_cases hmem : k₁ ∈ ks
    · rw [if_pos (by simpa using hmem)]
      by_cases hk : k₁ = k
      · subst hk
        simp [dictGet]
      · simp [dictGet, hk, ih]
    · have hk : k₁ ≠ k := fun he => hmem (he ▸ h)
      rw [if_neg (by simpa using hmem), ih]
      simp [dictGet, hk]

theorem dictFilterKeys_keys_subset (d : Dict) (ks : List String) (k : String)
    (h : k ∉ ks) : k ∉ (dictFilterKeys d ks).map Prod.fst := by
  intro hmem
  obtain ⟨⟨k₁, v₁⟩, hp, he⟩ := List.mem_map.mp hmem
  have hf := List.of_mem_filter hp
  simp only [decide_eq_true_eq] at hf
  exact h (he ▸ hf)

theorem dictGet_dictUpdate_of_none (d u : Dict) (k : String)
    (h : dictGet u k = none) : dictGet (dictUpdate d u) k = dictGet d k :=
  dictGet_dictUpdate_not_mem d u k ((dictGet_eq_none_iff u k).mp h)

theorem dictFilterKeys_nodup_keys (d : Dict) (ks : List String)
    (hd : (d.map Prod.fst).Nodup) : ((dictFilterKeys d ks).map Prod.fst).Nodup := by
  induction d with
  | nil => simp [dictFilterKeys]
  | cons p rest ih =>
    obtain ⟨k₁, v₁⟩ := p
    simp only [List.map_cons, List.nodup_cons] at hd
    simp only [dictFilterKeys, List.filter_cons] at ih ⊢
    by_cases hmem : k₁ ∈ ks
    · rw [if_pos (by simpa using hmem)]
      simp only [List.map_cons, List.nodup_cons]
      refine ⟨fun hk => hd.1 ?_, ih hd.2⟩
      obtain ⟨⟨k₂, v₂⟩, hp, he⟩ := List.mem_map.mp hk
      exact List.mem_map.mpr ⟨(k₂, v₂), List.mem_of_mem_filter hp, he⟩
    · rw [if_neg (by simpa using hmem)]
      exact ih hd.2

/-! ## Helper lemmas on the KV store -/

theorem kvGet_kvSet_self (kv : KVStore) (k : String) (v : KVVal) :
    kvGet (kvSet kv k v) k = some v := by
  induction kv with
  | nil => simp [kvSet, kvGet]
  | cons p rest ih =>
    obtain ⟨k₁, v₁⟩ := p
    by_cases h : k₁ = k <;> simp [kvSet, kvGet, h, ih]

theorem kvGet_kvSet_ne (kv : KVStore) (k k₀ : String) (v : KVVal) (hne : k ≠ k₀) :
    kvGet (kvSet kv k v) k₀ = kvGet kv k₀ := by
  induction kv with
  | nil => simp [kvSet, kvGet, hne]
  | cons p rest ih =>
    obtain ⟨k₁, v₁⟩ := p
    by_cases h : k₁ = k
    · subst h
      simp [kvSet, kvGet, hne]
    · simp [kvSet, kvGet, h, ih]

theorem kvGet_kvDelete_self (kv : KVStore) (k : String) :
    kvGet (kvDelete kv k) k = none := by
  induction kv with
  | nil => rfl
  | cons p rest ih =>
    obtain ⟨k₁, v₁⟩ := p
    by_cases h : k₁ = k
    · subst h
      simpa [kvDelete, List.filter_cons] using ih
    · simpa [kvDelete, List.filter_cons, h, kvGet] using ih

theorem kvGet_kvDelete_ne (kv : KVStore) (k k₀ : String) (hne : k ≠ k₀) :
    kvGet (kvDelete kv k) k₀ = kvGet kv k₀ := by
  induction kv with
  | nil => rfl
  | cons p rest ih =>
    obtain ⟨k₁, v₁⟩ := p
    simp only [kvDelete, List.filter_cons, ne_eq, decide_not] at ih ⊢
    by_cases h : k₁ = k
    · subst h
      rw [if_neg (by simp), ih]
      simp [kvGet, hne]
    · rw [if_pos (by simp [h])]
      by_cases h0 : k₁ = k₀ <;> simp [kvGet, h0, ih]

theorem filter_idem {α : Type} (p : α → Bool) (l : List α) :
    (l.filter p).filter p = l.filter p := by
  induction l with
  | nil => rfl
  | cons a rest ih =>
    cases h : p a <;> simp [List.filter_cons, h, ih]

theorem filter_comm {α : Type} (p q : α → Bool) (l : List α) :
    (l.filter p).filter q = (l.filter q).filter p := by
  induction l with
  | nil => rfl
  | cons a rest ih =>
    cases hp : p a <;> cases hq : q a <;> simp [List.filter_cons, hp, hq, ih]

/-! ## Helper lemmas on the canonical keys -/

theorem aliveKey_ne_timeoutKey (sandbox_id : String) :
    aliveKey sandbox_id ≠ timeoutKey sandbox_id := by
  intro h
  have h2 : (aliveKey sandbox_id).length = (timeoutKey sandbox_id).length := by rw [h]
  simp [aliveKey, timeoutKey, String.length_append] at h2
  exact absurd h2 (by decide)

theorem kvGet_clear_redis_keys_alive (kv : KVStore) (sandbox_id : String) :
    kvGet (clear_redis_keys kv sandbox_id) (aliveKey sandbox_id) = none := by
  unfold clear_redis_keys
  rw [kvGet_kvDelete_ne _ _ _ (aliveKey_ne_timeoutKey sandbox_id).symm,
    kvGet_kvDelete_self]

theorem kvGet_clear_redis_keys_timeout (kv : KVStore) (sandbox_id : String) :
    kvGet (clear_redis_keys kv sandbox_id) (timeoutKey sandbox_id) = none := by
  unfold clear_redis_keys
  rw [kvGet_kvDelete_self]

theorem clear_redis_keys_idem (kv : KVStore) (sandbox_id : String) :
    clear_redis_keys (clear_redis_keys kv sandbox_id) sandbox_id
      = clear_redis_keys kv sandbox_id := by
  unfold clear_redis_keys kvDelete
  rw [filter_comm, filter_idem, filter_comm, filter_idem]

/-! ## Helper lemmas on prefix stripping and the reaper fold -/

theorem strDropPref_of_hasPref (p k : String) (h : hasPref p k = true) :
    p ++ strDropPref p k = k := by
  have hdata : k.data.take p.data.length = p.data := by simpa [hasPref] using h
  apply String.ext
  rw [strDropPref, if_pos h]
  show p.data ++ k.data.drop p.data.length = k.data
  calc p.data ++ k.data.drop p.data.length
      = k.data.take p.data.length ++ k.data.drop p.data.length := by rw [hdata]
    _ = k.data := List.take_append_drop _ _

theorem foldl_check_job_step (kv : KVStore) (now : Nat) (keys : List String)
    (acc : List String) :
    keys.foldl (check_job_step kv now) acc = acc ++ keys.filterMap (expiredId kv now) := by
  induction keys generalizing acc with
  | nil => simp
  | cons k rest ih =>
    rw [List.foldl_cons, List.filterMap_cons, ih]
    cases hexp : is_expired kv (strDropPref "alive:" k) now with
    | ok b =>
      cases b <;> simp [check_job_step, expiredId, hexp, List.append_assoc]
    | error e =>
      simp [check_job_step, expiredId, hexp]

/-! ## Helper lemmas on the live deployment view -/

theorem rayGetStatus_get_port_mapping (a : ActorView) :
    dictGet (rayGetStatus a) "port_mapping" = some (.ports a.port_mapping) := by
  simp only [rayGetStatus]
  cases ha : a.is_alive
  · rw [if_neg (by simp)]
    rw [dictGet_dictSet_ne _ _ _ _ (by decide), dictGet_dictSet_self]
  · rw [if_pos rfl]
    rw [dictGet_dictSet_ne _ _ _ _ (by decide),
      dictGet_dictSet_ne _ _ _ _ (by decide), dictGet_dictSet_self]

theorem rayGetStatus_get_alive (a : ActorView) :
    dictGet (rayGetStatus a) "alive" = some (.bool a.is_alive) := by
  simp only [rayGetStatus]
  cases ha : a.is_alive
  · rw [if_neg (by simp)]
    rw [dictGet_dictSet_self]
  · rw [if_pos rfl]
    rw [dictGet_dictSet_ne _ _ _ _ (by decide), dictGet_dictSet_self]

theorem rayGetStatus_get_state (a : ActorView) (ha : a.is_alive = true) :
    dictGet (rayGetStatus a) "state" = some (.str "running") := by
  simp only [rayGetStatus, ha, if_true]
  rw [dictGet_dictSet_self]

theorem rayGetStatus_get_status (a : ActorView) :
    dictGet (rayGetStatus a) "status" = dictGet a.base "status" := by
  simp only [rayGetStatus]
  cases ha : a.is_alive
  · rw [if_neg (by simp)]
    rw [dictGet_dictSet_ne _ _ _ _ (by decide), dictGet_dictSet_ne _ _ _ _ (by decide),
      dictGet_dictSet_ne _ _ _ _ (by decide)]
  · rw [if_pos rfl]
    rw [dictGet_dictSet_ne _ _ _ _ (by decide), dictGet_dictSet_ne _ _ _ _ (by decide),
      dictGet_dictSet_ne _ _ _ _ (by decide), dictGet_dictSet_ne _ _ _ _ (by decide)]

theorem rayGetStatus_nodup_keys (a : ActorView) (h : (a.base.map Prod.fst).Nodup) :
    ((rayGetStatus a).map Prod.fst).Nodup := by
  simp only [rayGetStatus]
  cases ha : a.is_alive
  · rw [if_neg (by simp)]
    exact dictSet_nodup_keys _ _ _ (dictSet_nodup_keys _ _ _ (dictSet_nodup_keys _ _ _ h))
  · rw [if_pos rfl]
    exact dictSet_nodup_keys _ _ _
      (dictSet_nodup_keys _ _ _ (dictSet_nodup_keys _ _ _ (dictSet_nodup_keys _ _ _ h)))

/-! ## Claim C1 -/

/-- Any of the three overage conditions makes validate_sandbox_spec raise
BadRequest. -/
theorem validate_sandbox_spec_badRequest (rc : RuntimeConfig) (dc : DeploymentConfig)
    (hcond : rc.max_allowed_spec.cpus < dc.cpus
      ∨ (∃ m M, parseMemorySize dc.memory = some m
          ∧ parseMemorySize rc.max_allowed_spec.memory = some M ∧ M < m)
      ∨ parseMemorySize dc.memory = none) :
    ∃ msg, validate_sandbox_spec rc dc = .error (.badRequest msg) := by
  unfold validate_sandbox_spec
  cases hm : parseMemorySize dc.memory with
  | none => exact ⟨_, rfl⟩
  | some m =>
    cases hM : parseMemorySize rc.max_allowed_spec.memory with
    | none => exact ⟨_, rfl⟩
    | some M =>
      dsimp only
      by_cases hc : rc.max_allowed_spec.cpus < dc.cpus
      · rw [if_pos hc]
        exact ⟨_, rfl⟩
      · rw [if_neg hc]
        rcases hcond with h | ⟨m₁, M₁, hm₁, hM₁, hlt⟩ | h
        · exact absurd h hc
        · rw [hm] at hm₁
          rw [hM] at hM₁
          obtain rfl := Option.some.inj hm₁
          obtain rfl := Option.some.inj hM₁
          rw [if_pos hlt]
          exact ⟨_, rfl⟩
        · rw [hm] at h
          exact absurd h (by simp)

/-- C1: submit raises BadRequest whenever config.cpus exceeds
runtime.max_allowed_spec.cpus, whenever the parsed config memory exceeds
the parsed maximum memory, or whenever the config memory is unparsable;
and whenever submit fails with BadRequest the KV store is unchanged, so
neither the alive key nor the timeout key of the sandbox is written. -/
theorem c1_submit_validation (s : ManagerState) (rc : RuntimeConfig)
    (dc : DeploymentConfig) (env : SubmitEnv) :
    ((rc.max_allowed_spec.cpus < dc.cpus
        ∨ (∃ m M, parseMemorySize dc.memory = some m
            ∧ parseMemorySize rc.max_allowed_spec.memory = some M ∧ M < m)
        ∨ parseMemorySize dc.memory = none) →
      ∃ msg, (managerSubmit s rc dc env).2 = .error (.badRequest msg))
    ∧ (∀ msg, (managerSubmit s rc dc env).2 = .error (.badRequest msg) →
        (managerSubmit s rc dc env).1.kv = s.kv) := by
  constructor
  · intro hcond
    obtain ⟨msg, hv⟩ := validate_sandbox_spec_badRequest rc dc hcond
    refine ⟨msg, ?_⟩
    unfold managerSubmit
    rw [hv]
  · intro msg hbad
    unfold managerSubmit at hbad ⊢
    cases hv : validate_sandbox_spec rc dc with
    | error e => rfl
    | ok u =>
      rw [hv] at hbad
      cases hd : env.deployResult with
      | error e => rfl
      | ok info =>
        rw [hd] at hbad
        exact absurd hbad (by simp)

/-- Witness for C1: a config asking for 20 CPUs against a 16-CPU maximum is
rejected with BadRequest and the KV store stays empty. -/
theorem c1_submit_validation_witness :
    (∃ msg, (managerSubmit ⟨[], [], []⟩ ⟨⟨16, "64g"⟩⟩
        ⟨"python:3.11", 20, "1g", 5, "sb1"⟩ ⟨1000, .ok []⟩).2
      = .error (.badRequest msg))
    ∧ (managerSubmit ⟨[], [], []⟩ ⟨⟨16, "64g"⟩⟩
        ⟨"python:3.11", 20, "1g", 5, "sb1"⟩ ⟨1000, .ok []⟩).1.kv = [] := by
  obtain ⟨hA, hB⟩ := c1_submit_validation ⟨[], [], []⟩ ⟨⟨16, "64g"⟩⟩
    ⟨"python:3.11", 20, "1g", 5, "sb1"⟩ ⟨1000, .ok []⟩
  obtain ⟨msg, hmsg⟩ := hA (Or.inl (by norm_num))
  exact ⟨⟨msg, hmsg⟩, hB msg hmsg⟩

/-! ## Claim C2 -/

/-- A state whose KV keys, meta entry and actor for the sandbox are already
gone is a fixed point of managerStop, and the call raises nothing. -/
theorem managerStop_of_cleared (s : ManagerState) (sandbox_id : String)
    (hkv : clear_redis_keys s.kv sandbox_id = s.kv)
    (hmeta : s.meta.filter (fun p => p.1 ≠ sandbox_id) = s.meta)
    (hact : sandbox_id ∉ s.actors) :
    managerStop s sandbox_id = .ok s := by
  unfold managerStop deployment_service_stop
  rw [if_neg hact, hkv, hkv, hmeta]

/-- C2: stop swallows the actor-not-found ValueError from the deployment
layer, unconditionally deletes both the alive and the timeout KV key, and
is idempotent: the first call returns without error, and a second stop on
the resulting state returns the very same state without error. -/
theorem c2_stop_idempotent (s : ManagerState) (sandbox_id : String) :
    ∃ s₁, managerStop s sandbox_id = .ok s₁
      ∧ kvGet s₁.kv (aliveKey sandbox_id) = none
      ∧ kvGet s₁.kv (timeoutKey sandbox_id) = none
      ∧ sandbox_id ∉ s₁.actors
      ∧ managerStop s₁ sandbox_id = .ok s₁ := by
  have hfilter_not_mem : ∀ l : List String, sandbox_id ∉ l.filter (fun a => a ≠ sandbox_id) := by
    intro l hin
    have := List.of_mem_filter hin
    simp at this
  by_cases hmem : sandbox_id ∈ s.actors
  · have hstop : managerStop s sandbox_id
        = .ok { kv := clear_redis_keys s.kv sandbox_id,
                meta := s.meta.filter (fun p => p.1 ≠ sandbox_id),
                actors := s.actors.filter (fun a => a ≠ sandbox_id) } := by
      unfold managerStop deployment_service_stop
      rw [if_pos hmem]
    exact ⟨_, hstop, kvGet_clear_redis_keys_alive _ _, kvGet_clear_redis_keys_timeout _ _,
      hfilter_not_mem s.actors,
      managerStop_of_cleared _ _ (clear_redis_keys_idem _ _) (filter_idem _ _)
        (hfilter_not_mem s.actors)⟩
  · have hstop : managerStop s sandbox_id
        = .ok { kv := clear_redis_keys (clear_redis_keys s.kv sandbox_id) sandbox_id,
                meta := s.meta.filter (fun p => p.1 ≠ sandbox_id),
                actors := s.actors } := by
      unfold managerStop deployment_service_stop
      rw [if_neg hmem]
    exact ⟨_, hstop, kvGet_clear_redis_keys_alive _ _, kvGet_clear_redis_keys_timeout _ _,
      hmem,
      managerStop_of_cleared _ _ (clear_redis_keys_idem _ _) (filter_idem _ _) hmem⟩

/-! ## Claim C3 -/

/-- When the alive record is present and the timeout record holds origin,
_update_expire_time rewrites the timeout record, keeping auto_clear_time
and setting expire_time to now plus sixty times auto_clear_time. -/
theorem update_expire_time_hit (kv : KVStore) (sandbox_id : String) (now : Nat)
    (origin : TimeoutRecord)
    (halive : (kvGet kv (aliveKey sandbox_id)).isSome = true)
    (ht : kvGet kv (timeoutKey sandbox_id) = some (.timeout origin)) :
    update_expire_time kv sandbox_id now
      = kvSet kv (timeoutKey sandbox_id)
          (.timeout { auto_clear_time := origin.auto_clear_time,
                      expire_time := now + origin.auto_clear_time * 60 }) := by
  unfold update_expire_time
  cases hget : kvGet kv (aliveKey sandbox_id) with
  | none =>
    rw [hget] at halive
    exact absurd halive (by simp)
  | some v =>
    rw [ht]

/-- C3: for a sandbox whose alive and timeout records both exist, a
get_status call at time now rewrites the timeout record with expire_time
equal to now plus sixty times auto_clear_time, leaving auto_clear_time
unchanged, so the new expire_time is at least now plus sixty times the
TTL in minutes. -/
theorem c3_sliding_ttl (s : ManagerState) (sandbox_id : String) (a : ActorView)
    (now : Nat) (d : Dict) (origin : TimeoutRecord)
    (halive : kvGet s.kv (aliveKey sandbox_id) = some (.info d))
    (htimeout : kvGet s.kv (timeoutKey sandbox_id) = some (.timeout origin)) :
    kvGet ((managerGetStatus s sandbox_id a now).1.kv) (timeoutKey sandbox_id)
      = some (.timeout { auto_clear_time := origin.auto_clear_time,
                         expire_time := now + origin.auto_clear_time * 60 })
    ∧ ∃ tr, kvGet ((managerGetStatus s sandbox_id a now).1.kv) (timeoutKey sandbox_id)
        = some (.timeout tr)
        ∧ tr.auto_clear_time = origin.auto_clear_time
        ∧ now + 60 * tr.auto_clear_time ≤ tr.expire_time := by
  have key : ∀ si : Dict,
      kvGet (update_expire_time (kvSet s.kv (aliveKey sandbox_id) (.info si)) sandbox_id now)
          (timeoutKey sandbox_id)
        = some (.timeout { auto_clear_time := origin.auto_clear_time,
                           expire_time := now + origin.auto_clear_time * 60 }) := by
    intro si
    rw [update_expire_time_hit _ _ _ origin
        (by rw [kvGet_kvSet_self]; rfl)
        (by rw [kvGet_kvSet_ne _ _ _ _ (aliveKey_ne_timeoutKey _)]; exact htimeout),
      kvGet_kvSet_self]
  simp only [managerGetStatus]
  exact ⟨key _, _, key _, rfl, by dsimp only; omega⟩

/-- Witness for C3: a concrete store with TTL 5 minutes read at time 1000
gets expire_time 1300. -/
theorem c3_sliding_ttl_witness :
    kvGet ((managerGetStatus
        ⟨[(aliveKey "sb", .info []), (timeoutKey "sb", .timeout ⟨5, 50⟩)], [], ["sb"]⟩
        "sb" ⟨[], [], [], true⟩ 1000).1.kv) (timeoutKey "sb")
      = some (.timeout ⟨5, 1300⟩) := by
  have h := (c3_sliding_ttl
      ⟨[(aliveKey "sb", .info []), (timeoutKey "sb", .timeout ⟨5, 50⟩)], [], ["sb"]⟩
      "sb" ⟨[], [], [], true⟩ 1000 [] ⟨5, 50⟩ rfl rfl).1
  exact h

/-! ## Claim C4 -/

/-- C4 counterexample: the live deployment view stores its fresh phase map
under the key phases, but get_status merges only status, port_mapping and
alive from the live view, so the phase map the response reports is the
stale cached one, not the live one — the live view does not win for
phases.  Concretely, with a cached record whose status entry is stale and
a live view whose docker_run phase is running, the response status differs
from the live phases entry and equals the cached one. -/
theorem c4_counterexample :
    (managerGetStatus c4state "sb" c4actor 1000).2.status
        ≠ dictGet (rayGetStatus c4actor) "phases"
    ∧ (managerGetStatus c4state "sb" c4actor 1000).2.status
        = dictGet c4cached "status" := by
  constructor
  · decide
  · decide

/-- C4 (amended): for a sandbox with a cached alive record, get_status
returns a merge in which the cached record wins for static metadata
(image, user_id, host_name), the live view wins for port_mapping, alive
and state (with state RUNNING whenever the live view is alive), while the
phase map is NOT taken from the live view: the live phases sit under the
key phases, only the key status is merged, so when the actor dict carries
no status entry the response returns the cached status unchanged. -/
theorem c4_amended_merge (s : ManagerState) (sandbox_id : String) (a : ActorView)
    (now : Nat) (cached : Dict)
    (hcached : kvGet s.kv (aliveKey sandbox_id) = some (.info cached))
    (hbase : (a.base.map Prod.fst).Nodup)
    (hbase_status : dictGet a.base "status" = none)
    (halive : a.is_alive = true) :
    (managerGetStatus s sandbox_id a now).2.port_mapping = some (.ports a.port_mapping)
    ∧ (managerGetStatus s sandbox_id a now).2.is_alive = some (.bool true)
    ∧ (managerGetStatus s sandbox_id a now).2.state = some (.str "running")
    ∧ (managerGetStatus s sandbox_id a now).2.image = dictGet cached "image"
    ∧ (managerGetStatus s sandbox_id a now).2.user_id = dictGet cached "user_id"
    ∧ (managerGetStatus s sandbox_id a now).2.host_name = dictGet cached "host_name"
    ∧ (managerGetStatus s sandbox_id a now).2.status = dictGet cached "status" := by
  have hnodup : ((rayGetStatus a).map Prod.fst).Nodup := rayGetStatus_nodup_keys a hbase
  have hnodup_r : ((dictFilterKeys (rayGetStatus a)
      ["status", "port_mapping", "alive"]).map Prod.fst).Nodup :=
    dictFilterKeys_nodup_keys _ _ hnodup
  have hbuild : build_sandbox_info_from_redis s.kv sandbox_id = some cached := by
    unfold build_sandbox_info_from_redis
    rw [hcached]
  have hstate : dictGet (rayGetStatus a) "state" = some (.str "running") :=
    rayGetStatus_get_state a halive
  simp only [managerGetStatus, hbuild, hstate]
  refine ⟨?_, ?_, ?_, ?_, ?_, ?_, ?_⟩
  · exact dictGet_dictUpdate_mem _ _ _ _ hnodup_r
      ((dictGet_dictFilterKeys_of_mem _ _ _ (by simp)).trans
        (rayGetStatus_get_port_mapping a))
  · rw [dictGet_dictUpdate_mem _ _ _ (.bool true) hnodup_r
      ((dictGet_dictFilterKeys_of_mem _ _ _ (by simp)).trans
        (by rw [rayGetStatus_get_alive, halive]))]
  · rw [dictGet_dictUpdate_not_mem _ _ _
        (dictFilterKeys_keys_subset _ _ _ (by decide)),
      dictGet_dictSet_self]
    rfl
  · rw [dictGet_dictUpdate_not_mem _ _ _
        (dictFilterKeys_keys_subset _ _ _ (by decide)),
      dictGet_dictSet_ne _ _ _ _ (by decide)]
  · rw [dictGet_dictUpdate_not_mem _ _ _
        (dictFilterKeys_keys_subset _ _ _ (by decide)),
      dictGet_dictSet_ne _ _ _ _ (by decide)]
  · rw [dictGet_dictUpdate_not_mem _ _ _
        (dictFilterKeys_keys_subset _ _ _ (by decide)),
      dictGet_dictSet_ne _ _ _ _ (by decide)]
  · rw [dictGet_dictUpdate_of_none _ _ _
        ((dictGet_dictFilterKeys_of_mem _ _ _ (by simp)).trans
          ((rayGetStatus_get_status a).trans hbase_status)),
      dictGet_dictSet_ne _ _ _ _ (by decide)]

/-- Witness for the amended C4 at the concrete fixtures: the live port
mapping and alive flag win, the state is running, the cached image and
status entries survive the merge. -/
theorem c4_amended_merge_witness :
    (managerGetStatus c4state "sb" c4actor 1000).2.port_mapping
        = some (.ports [("proxy", 8080)])
    ∧ (managerGetStatus c4state "sb" c4actor 1000).2.is_alive = some (.bool true)
    ∧ (managerGetStatus c4state "sb" c4actor 1000).2.state = some (.str "running")
    ∧ (managerGetStatus c4state "sb" c4actor 1000).2.image
        = dictGet c4cached "image"
    ∧ (managerGetStatus c4state "sb" c4actor 1000).2.status
        = dictGet c4cached "status" := by
  obtain ⟨h1, h2, h3, h4, h5, h6, h7⟩ :=
    c4_amended_merge c4state "sb" c4actor 1000 c4cached rfl (by decide) rfl rfl
  exact ⟨h1, h2, h3, h4, h7⟩

/-! ## Claim C5 -/

/-- C5: on every iteration the reaper issues a scan over the alive: keys
with batch hint 100; the scan itself leaves the state untouched (the
scheduled stops are fire-and-forget tasks, not awaited); the scheduled ids
are exactly those whose timeout record makes _is_expired return True; a
sandbox whose timeout record is absent is never scheduled and the scan
continues past it; and since the fold is total, no per-sandbox exception
terminates the scan. -/
theorem c5_reaper_scan (s : ManagerState) (now : Nat) :
    (check_job_background s now).1 = s
    ∧ (check_job_background s now).2
        = (scanAliveKeys s.kv).filterMap (expiredId s.kv now)
    ∧ (∀ sandbox_id, kvGet s.kv (timeoutKey sandbox_id) = none →
        sandbox_id ∉ (check_job_background s now).2)
    ∧ (∀ key ∈ scanAliveKeys s.kv, ∀ origin,
        kvGet s.kv (timeoutKey (strDropPref "alive:" key)) = some (.timeout origin) →
        (strDropPref "alive:" key ∈ (check_job_background s now).2
          ↔ origin.expire_time < now))
    ∧ check_job_scan_request.match_glob = "alive:*"
    ∧ check_job_scan_request.count = 100 := by
  have heq : (check_job_background s now).2
      = (scanAliveKeys s.kv).filterMap (expiredId s.kv now) := by
    show (scanAliveKeys s.kv).foldl (check_job_step s.kv now) []
      = (scanAliveKeys s.kv).filterMap (expiredId s.kv now)
    rw [foldl_check_job_step]
    rfl
  refine ⟨rfl, heq, ?_, ?_, rfl, rfl⟩
  · intro sandbox_id hnone hin
    rw [heq] at hin
    obtain ⟨key, hkey, hsome⟩ := List.mem_filterMap.mp hin
    simp only [expiredId] at hsome
    cases hexp : is_expired s.kv (strDropPref "alive:" key) now with
    | error e =>
      rw [hexp] at hsome
      exact absurd hsome (by simp)
    | ok b =>
      cases b
      · rw [hexp] at hsome
        exact absurd hsome (by simp)
      · rw [hexp] at hsome
        have hid : strDropPref "alive:" key = sandbox_id := by simpa using hsome
        rw [hid] at hexp
        unfold is_expired at hexp
        rw [hnone] at hexp
        exact absurd hexp (by simp)
  · intro key hkey origin horigin
    rw [heq]
    constructor
    · intro hin
      obtain ⟨key₁, hkey₁, hsome⟩ := List.mem_filterMap.mp hin
      simp only [expiredId] at hsome
      cases hexp : is_expired s.kv (strDropPref "alive:" key₁) now with
      | error e =>
        rw [hexp] at hsome
        exact absurd hsome (by simp)
      | ok b =>
        cases b
        · rw [hexp] at hsome
          exact absurd hsome (by simp)
        · rw [hexp] at hsome
          have hid : strDropPref "alive:" key₁ = strDropPref "alive:" key := by
            simpa using hsome
          rw [hid] at hexp
          unfold is_expired at hexp
          rw [horigin] at hexp
          simpa using hexp
    · intro hlt
      apply List.mem_filterMap.mpr
      refine ⟨key, hkey, ?_⟩
      simp only [expiredId, is_expired]
      rw [horigin]
      simp [hlt]

/-- Witness for C5: with sandbox a expired (expire 10, now 100) and
sandbox c lacking a timeout record, the scan schedules a and skips c. -/
theorem c5_reaper_scan_witness :
    strDropPref "alive:" (aliveKey "a")
      ∈ (check_job_background
          ⟨[(aliveKey "a", .info []), (timeoutKey "a", .timeout ⟨5, 10⟩),
            (aliveKey "c", .info [])], [], []⟩ 100).2
    ∧ "c" ∉ (check_job_background
          ⟨[(aliveKey "a", .info []), (timeoutKey "a", .timeout ⟨5, 10⟩),
            (aliveKey "c", .info [])], [], []⟩ 100).2 := by
  have h := c5_reaper_scan
    ⟨[(aliveKey "a", .info []), (timeoutKey "a", .timeout ⟨5, 10⟩),
      (aliveKey "c", .info [])], [], []⟩ 100
  refine ⟨(h.2.2.2.1 (aliveKey "a") (by decide) ⟨5, 10⟩ (by decide)).mpr (by decide),
    h.2.2.1 "c" (by decide)⟩

/-! ## Claim C6 -/

/-- C6: the claim says that with retryable_status_codes containing 429 the
proxy retries and the client sees 200 after at least two upstream calls
when the upstream answers 429 then 200.  The handler in
rock/sdk/model/server/api/proxy.py performs exactly one upstream call,
never consults any retry whitelist, and returns the 429 body and status to
the client unchanged — evaluated here at that exact failing input.  The
repository tests (tests/unit/sdk/model/test_proxy.py) assert the claimed
retry behaviour, so the shipped handler, not the claim, is at fault. -/
theorem c6_no_retry_divergence :
    chat_completions [.response 429 (.str "rate limited"), .response 200 (.str "ok")]
      = (.jsonResponse (.str "rate limited") 429, 1) := rfl

/-! ## Claim C7 -/

/-- C7 counterexample: a 200 response whose body has exit_code 1 is raised
as a RuntimeError rather than returned as structured output, and a 500
response whose body has exit_code 0 is returned as structured output
rather than raised — both conjuncts of the claim fail on
WorkerClient.execute. -/
theorem c7_counterexample :
    workerClientExecute "echo hi"
        { status_code := 200,
          body := [("stdout", .str ""), ("stderr", .str "boom"), ("exit_code", .num 1)] }
      = .error (.runtimeError "execute command [echo hi] error, caused by [boom]")
    ∧ workerClientExecute "ls /data"
        { status_code := 500,
          body := [("stdout", .str "ok"), ("stderr", .str ""), ("exit_code", .num 0)] }
      = .ok { stdout := "ok", stderr := "", exit_code := some 0 } :=
  ⟨rfl, rfl⟩

/-- C7 (amended): WorkerClient.execute never inspects the HTTP status
code; it decodes the body and raises RuntimeError exactly when the decoded
exit_code differs from 0 (including a missing exit_code), and returns the
decoded structured output exactly when exit_code is 0, whatever the HTTP
status was. -/
theorem c7_amended_exit_code (command : String) (resp : HttpResponse) :
    ((commandResponseOfJson resp.body).exit_code = some 0 →
      workerClientExecute command resp = .ok (commandResponseOfJson resp.body))
    ∧ ((commandResponseOfJson resp.body).exit_code ≠ some 0 →
      ∃ msg, workerClientExecute command resp = .error (.runtimeError msg)) := by
  constructor
  · intro h
    unfold workerClientExecute
    rw [if_neg (by simp [h])]
  · intro h
    unfold workerClientExecute
    rw [if_pos h]
    exact ⟨_, rfl⟩

/-- Witness for the amended C7: exit_code 0 is returned, exit_code 1 is
raised, both under HTTP 200. -/
theorem c7_amended_exit_code_witness :
    workerClientExecute "true" { status_code := 200, body := [("exit_code", .num 0)] }
      = .ok (commandResponseOfJson [("exit_code", .num 0)])
    ∧ ∃ msg, workerClientExecute "false"
        { status_code := 200, body := [("exit_code", .num 1)] }
      = .error (.runtimeError msg) := by
  refine ⟨(c7_amended_exit_code "true"
      { status_code := 200, body := [("exit_code", .num 0)] }).1 rfl,
    (c7_amended_exit_code "false"
      { status_code := 200, body := [("exit_code", .num 1)] }).2 (by decide)⟩

/-! ## Claim C8 -/

/-- C8 counterexample: the claim says a stopped sandbox is representable
with state STOPPED, but the State enum in
rock/actions/sandbox/response.py has no member whose value is stopped. -/
theorem c8_counterexample : ¬ ∃ s : State, s.val = "stopped" := by
  rintro ⟨s, h⟩
  cases s
  · exact absurd h (by decide)
  · exact absurd h (by decide)

/-- C8 (amended): every value of the sandbox state field is one of PENDING
and RUNNING; the enum has no STOPPED member, so a stopped sandbox is not
representable through the state field. -/
theorem c8_amended_states (s : State) : s.val = "pending" ∨ s.val = "running" := by
  cases s
  · exact Or.inl rfl
  · exact Or.inr rfl

/-! ## Claim C9 -/

/-- C9 counterexample: validate_sandbox_spec only compares cpus against the
maximum, so a config with cpus -1 (non-positive) inside the maxima passes
validation, where the claim demands BadRequest. -/
theorem c9_counterexample :
    validate_sandbox_spec ⟨⟨16, "64g"⟩⟩ ⟨"python:3.11", -1, "1g", 5, "sb1"⟩
      = .ok () := rfl

/-- C9 (amended): validate_sandbox_spec rejects memory 0 (unit-less,
unparsable) with BadRequest and accepts any config whose parsed memory is
within the parsed maximum and whose cpus is at most max.cpus — including
cpus exactly equal to max.cpus, and including non-positive cpus, which it
does not reject. -/
theorem c9_amended_boundaries (rc : RuntimeConfig) (dc : DeploymentConfig) :
    (dc.memory = "0" → ∃ msg, validate_sandbox_spec rc dc = .error (.badRequest msg))
    ∧ (∀ m M, parseMemorySize dc.memory = some m →
        parseMemorySize rc.max_allowed_spec.memory = some M →
        m ≤ M → dc.cpus ≤ rc.max_allowed_spec.cpus →
        validate_sandbox_spec rc dc = .ok ()) := by
  constructor
  · intro hmem
    unfold validate_sandbox_spec
    rw [hmem]
    exact ⟨_, rfl⟩
  · intro m M hm hM hmem hcpus
    unfold validate_sandbox_spec
    rw [hm, hM]
    dsimp only
    rw [if_neg (not_lt.mpr hcpus), if_neg (not_lt.mpr hmem)]

/-- Witness for the amended C9: memory 0 is rejected; cpus 16 against
maximum 16 is accepted; cpus 0 is accepted as well. -/
theorem c9_amended_boundaries_witness :
    (∃ msg, validate_sandbox_spec ⟨⟨16, "64g"⟩⟩ ⟨"python:3.11", 4, "0", 5, "sb1"⟩
      = .error (.badRequest msg))
    ∧ validate_sandbox_spec ⟨⟨16, "64g"⟩⟩ ⟨"python:3.11", 16, "1g", 5, "sb2"⟩ = .ok ()
    ∧ validate_sandbox_spec ⟨⟨16, "64g"⟩⟩ ⟨"python:3.11", 0, "1g", 5, "sb3"⟩ = .ok () := by
  refine ⟨(c9_amended_boundaries ⟨⟨16, "64g"⟩⟩ ⟨"python:3.11", 4, "0", 5, "sb1"⟩).1 rfl,
    (c9_amended_boundaries ⟨⟨16, "64g"⟩⟩ ⟨"python:3.11", 16, "1g", 5, "sb2"⟩).2
      (1024 * 1024 * 1024) (64 * 1024 * 1024 * 1024) (by decide) (by decide)
      (by norm_num) (by norm_num),
    (c9_amended_boundaries ⟨⟨16, "64g"⟩⟩ ⟨"python:3.11", 0, "1g", 5, "sb3"⟩).2
      (1024 * 1024 * 1024) (64 * 1024 * 1024 * 1024) (by decide) (by decide)
      (by norm_num) (by norm_num)⟩

/-! ## Claim C10 -/

/-- C10: the three utilization getters are total — they return 0 when the
corresponding total (total_cpu, total_memory, gpu_count) is 0 instead of
dividing by it — and whenever 0 is at most available which is at most the
total, the returned utilization lies between 0 and 1. -/
theorem c10_utilization_total_and_bounded (m : SystemResourceMetrics) :
    (m.total_cpu = 0 → m.get_cpu_utilization = 0)
    ∧ (m.total_memory = 0 → m.get_memory_utilization = 0)
    ∧ (m.gpu_count = 0 → m.get_gpu_utilization = 0)
    ∧ (0 ≤ m.available_cpu → m.available_cpu ≤ m.total_cpu →
        0 ≤ m.get_cpu_utilization ∧ m.get_cpu_utilization ≤ 1)
    ∧ (0 ≤ m.available_memory → m.available_memory ≤ m.total_memory →
        0 ≤ m.get_memory_utilization ∧ m.get_memory_utilization ≤ 1)
    ∧ (0 ≤ m.available_gpu → m.available_gpu ≤ m.gpu_count →
        0 ≤ m.get_gpu_utilization ∧ m.get_gpu_utilization ≤ 1) := by
  have hdiv : ∀ t a : ℚ, 0 ≤ a → a ≤ t → t ≠ 0 → 0 ≤ (t - a) / t ∧ (t - a) / t ≤ 1 := by
    intro t a h0 hat ht
    have htpos : 0 < t := lt_of_le_of_ne (le_trans h0 hat) (Ne.symm ht)
    constructor
    · exact div_nonneg (by linarith) htpos.le
    · rw [div_le_one htpos]
      linarith
  refine ⟨?_, ?_, ?_, ?_, ?_, ?_⟩
  · intro h
    simp [SystemResourceMetrics.get_cpu_utilization, h]
  · intro h
    simp [SystemResourceMetrics.get_memory_utilization, h]
  · intro h
    simp [SystemResourceMetrics.get_gpu_utilization, h]
  · intro h0 hle
    unfold SystemResourceMetrics.get_cpu_utilization
    by_cases ht : m.total_cpu = 0
    · simp [ht]
    · rw [if_neg ht]
      exact hdiv _ _ h0 hle ht
  · intro h0 hle
    unfold SystemResourceMetrics.get_memory_utilization
    by_cases ht : m.total_memory = 0
    · simp [ht]
    · rw [if_neg ht]
      exact hdiv _ _ h0 hle ht
  · intro h0 hle
    unfold SystemResourceMetrics.get_gpu_utilization
    by_cases ht : m.gpu_count = 0
    · simp [ht]
    · rw [if_neg ht]
      have h0q : (0 : ℚ) ≤ (m.available_gpu : ℚ) := by exact_mod_cast h0
      have hleq : (m.available_gpu : ℚ) ≤ (m.gpu_count : ℚ) := by exact_mod_cast hle
      have htq : (m.gpu_count : ℚ) ≠ 0 := by exact_mod_cast ht
      exact hdiv _ _ h0q hleq htq

/-- Witness for C10: the all-zero metrics divide nowhere and report 0, and
a machine with 4 cores (1 free), 8 GB (2 free) and 2 GPUs (1 free) reports
utilizations inside the unit interval. -/
theorem c10_utilization_witness :
    SystemResourceMetrics.get_cpu_utilization ⟨0, 0, 0, 0, 0, 0⟩ = 0
    ∧ (0 ≤ SystemResourceMetrics.get_cpu_utilization ⟨4, 8, 1, 2, 2, 1⟩
        ∧ SystemResourceMetrics.get_cpu_utilization ⟨4, 8, 1, 2, 2, 1⟩ ≤ 1)
    ∧ (0 ≤ SystemResourceMetrics.get_gpu_utilization ⟨4, 8, 1, 2, 2, 1⟩
        ∧ SystemResourceMetrics.get_gpu_utilization ⟨4, 8, 1, 2, 2, 1⟩ ≤ 1) := by
  refine ⟨(c10_utilization_total_and_bounded ⟨0, 0, 0, 0, 0, 0⟩).1 rfl,
    (c10_utilization_total_and_bounded ⟨4, 8, 1, 2, 2, 1⟩).2.2.2.1
      (by norm_num) (by norm_num),
    (c10_utilization_total_and_bounded ⟨4, 8, 1, 2, 2, 1⟩).2.2.2.2.2
      (by norm_num) (by norm_num)⟩

end Rock
